import Mathlib

/-!
Verification development for the `trafikinfo_se` traffic-information
integration (`custom_components/trafikinfo_se/coordinator.py` and
`const.py`).  The Python source is shallowly embedded: XML documents are
modelled as an already-parsed element tree (the `xml.etree` library call
`ET.fromstring` is abstracted as a function producing such a tree or a
parse-error message), `datetime` values are modelled as nonnegative
ordinals counted from `datetime.min` (the type is totally ordered and
bounded below, which is all the code relies on), real-valued arithmetic
is modelled over `ℚ`, and the transcendental great-circle formula
`_haversine_km` is abstracted as a distance-function field of the
coordinator (no verified statement depends on its numeric values).
-/

namespace Trafikinfo

/-! ## Python string primitives used by the source -/

/-- Whitespace characters recognised by the Python `str.strip` /
regex `\s` classes, restricted to ASCII. -/
def pyWhitespace : List Char := [' ', '\t', '\n', '\r', '\x0b', '\x0c']

def isPyWs (c : Char) : Bool := pyWhitespace.contains c

/-- Model of Python `str.strip()`. -/
def pyStripS (s : String) : String :=
  ⟨((s.data.dropWhile isPyWs).reverse.dropWhile isPyWs).reverse⟩

/-- Lower-casing of one character: ASCII letters plus the Swedish
letters appearing in this code base (`Å`, `Ä`, `Ö`). -/
def pyLowerChar (c : Char) : Char :=
  if 'A' ≤ c ∧ c ≤ 'Z' then Char.ofNat (c.toNat + 32)
  else if c = 'Å' then 'å'
  else if c = 'Ä' then 'ä'
  else if c = 'Ö' then 'ö'
  else c

/-- Model of Python `str.lower()` on the alphabet used here. -/
def pyLower (s : String) : String := ⟨s.data.map pyLowerChar⟩

/-- Upper-casing of one character (mirror image of `pyLowerChar`). -/
def pyUpperChar (c : Char) : Char :=
  if 'a' ≤ c ∧ c ≤ 'z' then Char.ofNat (c.toNat - 32)
  else if c = 'å' then 'Å'
  else if c = 'ä' then 'Ä'
  else if c = 'ö' then 'Ö'
  else c

/-- Model of Python `str.upper()` on the alphabet used here. -/
def pyUpper (s : String) : String := ⟨s.data.map pyUpperChar⟩

/-- Model of the Python substring test `needle in hay`. -/
def strContains (hay needle : String) : Bool :=
  hay.data.tails.any (fun suf => needle.data.isPrefixOf suf)

/-- Model of Python `hay.endswith (suffix)` for a one-character suffix. -/
def endsWithChar (s : String) (c : Char) : Bool :=
  s.data.getLast? = some c

/-! ## Permissive scalar converters (`_strip`, `_as_bool`, `_as_int`, `_as_dt`) -/

/-- Model of `_strip`: trim, and collapse an empty result to `None`. -/
def pyStrip (s : Option String) : Option String :=
  match s with
  | none => none
  | some s =>
    let s2 := pyStripS s
    if s2 = "" then none else some s2

/-- Model of `_as_bool`: a small token vocabulary, `None` otherwise. -/
def as_bool (v : Option String) : Option Bool :=
  match pyStrip v with
  | none => none
  | some v =>
    if pyLower v = "true" ∨ pyLower v = "1" ∨ pyLower v = "yes" then some true
    else if pyLower v = "false" ∨ pyLower v = "0" ∨ pyLower v = "no" then some false
    else none

def digitVal (c : Char) : Nat := c.toNat - 48

def natOfDigits (l : List Char) : Nat :=
  l.foldl (fun acc c => acc * 10 + digitVal c) 0

/-- Decimal integer literal parse, as accepted by Python `int(...)` on a
stripped string (optional sign followed by digits). -/
def pyIntParse (s : String) : Option Int :=
  let core : List Char → Option Int := fun l =>
    if l ≠ [] ∧ l.all Char.isDigit then some (natOfDigits l : Int) else none
  match s.data with
  | '+' :: rest => core rest
  | '-' :: rest => (core rest).map Neg.neg
  | l => core l

/-- Model of `_as_int`. -/
def as_int (v : Option String) : Option Int :=
  match pyStrip v with
  | none => none
  | some v => pyIntParse v

/-- Datetimes are modelled as nonnegative ordinals counted from
`datetime.min`; the code only relies on the total order and on
`datetime.min` being a least element. -/
abbrev Datetime := Nat

/-- Model of `_as_dt`; the ISO-8601 parser `dt_util.parse_datetime` is an
external library call and is passed in as `pd`. -/
def as_dt (pd : String → Option Datetime) (v : Option String) : Option Datetime :=
  match pyStrip v with
  | none => none
  | some s => pd s

/-- Seconds from `datetime.min` to the Unix epoch: `datetime.timestamp ()`
is modelled as the order-embedding `t ↦ t - epochOffsetSeconds` into `ℚ`. -/
def epochOffsetSeconds : ℤ := 62135596800

/-! ## XML element trees (the output of `ET.fromstring`) -/

/-- Parsed XML element: local tag name, attributes, text, children.
Namespace-qualified tags are looked up by the source exclusively through
local-name wildcards, so tags are modelled by their local names. -/
inductive Xml where
  | elem (tag : String) (attrs : List (String × String)) (text : Option String)
      (children : List Xml)
deriving Repr

def Xml.tag : Xml → String
  | .elem t _ _ _ => t

def Xml.attrs : Xml → List (String × String)
  | .elem _ a _ _ => a

def Xml.text : Xml → Option String
  | .elem _ _ t _ => t

def Xml.children : Xml → List Xml
  | .elem _ _ _ c => c

mutual

/-- Proper descendants of an element, in document (preorder) order. -/
def Xml.desc : Xml → List Xml
  | .elem _ _ _ cs => Xml.descList cs

def Xml.descList : List Xml → List Xml
  | [] => []
  | c :: cs => c :: (Xml.desc c ++ Xml.descList cs)

end

/-- Direct children carrying a given local tag (`./{*}tag`). -/
def Xml.childrenTag (x : Xml) (t : String) : List Xml :=
  x.children.filter (fun c => c.tag = t)

/-- Proper descendants carrying a given local tag (`.//{*}tag`). -/
def Xml.descTag (x : Xml) (t : String) : List Xml :=
  x.desc.filter (fun c => c.tag = t)

/-- Model of `_findtext`: walk a `./A/B/...` chain of first children and
return the final element's text (`None` when the element is missing or
has no text). -/
def findtextPath (x : Xml) (path : List String) : Option String :=
  match path with
  | [] => x.text
  | t :: rest =>
    match (x.childrenTag t).head? with
    | none => none
    | some c => findtextPath c rest

/-- Model of `ElementTree.findtext` semantics for a found element: a found
element with no text yields the empty string. -/
def elemFindtext (e : Xml) : String := e.text.getD ""

/-- First match of `.//{*}ERROR/{*}MESSAGE` and its `findtext` value. -/
def errorMessageOf (root : Xml) : Option String :=
  (((root.descTag "ERROR").map (fun e => e.childrenTag "MESSAGE")).flatten.head?).map
    elemFindtext

/-- First match of `.//{*}INFO/{*}tag`. -/
def infoChild (root : Xml) (t : String) : Option Xml :=
  (((root.descTag "INFO").map (fun e => e.childrenTag t)).flatten.head?)

/-- Attribute lookup (`elem.attrib.get`). -/
def attrGet (e : Xml) (k : String) : Option String :=
  (e.attrs.find? (fun kv => kv.1 = k)).map (fun kv => kv.2)

/-! ## Constants from `const.py` -/

def SORT_MODE_RELEVANCE : String := "relevance"

def SORT_MODE_NEAREST : String := "nearest"

def SORT_MODE_NEWEST : String := "newest"

def COUNTY_ALL : String := "all"

def FILTER_MODE_COORDINATE : String := "coordinate"

def FILTER_MODE_COUNTY : String := "county"

/-! ## The flattened event record (`TrafikinfoEvent`) -/

/-- Flattened traffic event, one per upstream `Deviation` (the dataclass
`TrafikinfoEvent`, all fields in source order). -/
structure TrafikinfoEvent where
  situation_id : Option String
  deviation_id : Option String
  icon_id : Option String
  message_type : Option String
  message_type_value : Option String
  header : Option String
  message : Option String
  severity_code : Option Int
  severity_text : Option String
  road_number : Option String
  road_name : Option String
  county_no : List Int
  affected_direction : Option String
  affected_direction_value : Option String
  start_time : Option Datetime
  end_time : Option Datetime
  valid_until_further_notice : Option Bool
  suspended : Option Bool
  location_descriptor : Option String
  positional_description : Option String
  traffic_restriction_type : Option String
  temporary_limit : Option String
  number_of_lanes_restricted : Option Int
  safety_related_message : Option Bool
  weblink : Option String
  geometry_wgs84 : Option String
  version_time : Option Datetime
  publication_time : Option Datetime
  modified_time : Option Datetime
deriving DecidableEq, Repr

/-- Coordinator payload (the dataclass `TrafikinfoData`). -/
structure TrafikinfoData where
  events : List TrafikinfoEvent
  last_modified : Option Datetime
  last_change_id : Option String
  sse_url : Option String
deriving DecidableEq, Repr

/-- Exception hierarchy below `TrafikinfoError`; each carries its
`str(err)` message. -/
inductive TrafikinfoErr where
  | connection (msg : String)
  | authentication (msg : String)
  | api (msg : String)
  | parse (msg : String)
deriving DecidableEq, Repr

/-- Message of the exception (`str(err)`). -/
def TrafikinfoErr.message : TrafikinfoErr → String
  | .connection m => m
  | .authentication m => m
  | .api m => m
  | .parse m => m

instance {ε α : Type} [DecidableEq ε] [DecidableEq α] : DecidableEq (Except ε α) := fun a b =>
  match a, b with
  | .error x, .error y =>
    if h : x = y then isTrue (congrArg Except.error h)
    else isFalse (fun hc => h (Except.error.inj hc))
  | .ok x, .ok y =>
    if h : x = y then isTrue (congrArg Except.ok h)
    else isFalse (fun hc => h (Except.ok.inj hc))
  | .error _, .ok _ => isFalse (fun hc => Except.noConfusion hc)
  | .ok _, .error _ => isFalse (fun hc => Except.noConfusion hc)

/-! ## WKT point extraction (`_wkt_points` and `_WKT_NUMBER_RE`) -/

/-- Exact rational value of a matched numeric literal:
sign, integer digits, fractional digits (Python converts with `float`;
the value is modelled exactly over `ℚ`, built with `mkRat` so that it
evaluates inside the kernel). -/
def ratOfParts (neg : Bool) (ip fp : List Char) : ℚ :=
  let k := fp.length
  let n : Nat := natOfDigits ip * 10 ^ k + natOfDigits fp
  let q : ℚ := mkRat (Int.ofNat n) (10 ^ k)
  if neg then -q else q

/-- Longest leading run of decimal digits. -/
def digitSpan : List Char → List Char × List Char
  | [] => ([], [])
  | c :: cs =>
    if c.isDigit then
      let p := digitSpan cs
      (c :: p.1, p.2)
    else ([], c :: cs)

/-- One attempted match of the regex `[-+]?\d+(?:\.\d+)?` at the current
position; on success returns the value and the remaining input. -/
def matchNum (l : List Char) : Option (ℚ × List Char) :=
  let body : Option (Bool × List Char) :=
    match l with
    | '+' :: rest => if (rest.head?.map Char.isDigit).getD false then some (false, rest) else none
    | '-' :: rest => if (rest.head?.map Char.isDigit).getD false then some (true, rest) else none
    | c :: _ => if c.isDigit then some (false, l) else none
    | [] => none
  match body with
  | none => none
  | some (neg, b) =>
    let p := digitSpan b
    match p.2 with
    | '.' :: r2 =>
      if (r2.head?.map Char.isDigit).getD false then
        let f := digitSpan r2
        some (ratOfParts neg p.1 f.1, f.2)
      else some (ratOfParts neg p.1 [], p.2)
    | _ => some (ratOfParts neg p.1 [], p.2)

/-- Left-to-right non-overlapping scan of `re.findall` with the regex
above; `fuel` bounds the recursion and is instantiated with the input
length, which a match (consuming at least one character) never exhausts. -/
def scanNumsAux : Nat → List Char → List ℚ
  | 0, _ => []
  | _ + 1, [] => []
  | fuel + 1, c :: cs =>
    match matchNum (c :: cs) with
    | some (q, rest) => q :: scanNumsAux fuel rest
    | none => scanNumsAux fuel cs

def scanNums (l : List Char) : List ℚ :=
  scanNumsAux l.length l

/-- Grouping step of `_wkt_points`: `while i + 1 < len: take (f i, f i+1);
i += step` (`step` is 2 or 3).  The `fuel` argument only bounds the
recursion; instantiated with the input length it is never exhausted,
since every step consumes at least two elements. -/
def groupPtsAux : Nat → Nat → List ℚ → List (ℚ × ℚ)
  | 0, _, _ => []
  | fuel + 1, step, a :: b :: rest => (a, b) :: groupPtsAux fuel step (rest.drop (step - 2))
  | _ + 1, _, _ => []

def groupPts (step : Nat) (l : List ℚ) : List (ℚ × ℚ) :=
  groupPtsAux l.length step l

/-- Model of `_wkt_points`. -/
def wkt_points (wkt : Option String) : List (ℚ × ℚ) :=
  match wkt with
  | none => []
  | some w =>
    let s := pyStripS w
    if s = "" then []
    else
      let headr := pyUpper ⟨s.data.takeWhile (fun c => c ≠ '(')⟩
      let dim : Nat := if strContains headr " Z" ∨ endsWithChar headr 'Z' then 3 else 2
      let nums := scanNums s.data
      if nums.length < 2 then []
      else groupPts (if dim = 3 then 3 else 2) nums

/-! ## Coordinator configuration (`TrafikinfoCoordinator` fields) -/

/-- Configuration state of `TrafikinfoCoordinator` relevant to the
filtering/sorting/parsing pipeline.  `counties` models the Python set
(only membership and emptiness are consulted).  `haversine_km` holds the
great-circle distance function `_haversine_km (lon1, lat1, lon2, lat2)`;
its transcendental floating-point formula is abstracted as a field, and
no verified statement depends on its numeric values. -/
structure TrafikinfoCoordinator where
  api_key : String
  filter_roads : List String
  sort_mode : String
  filter_mode : String
  counties : List String
  latitude : ℚ
  longitude : ℚ
  sort_latitude : ℚ
  sort_longitude : ℚ
  radius_km : ℚ
  haversine_km : ℚ → ℚ → ℚ → ℚ → ℚ

/-- Model of `_is_important_without_geo`. -/
def is_important_without_geo (event : TrafikinfoEvent) : Bool :=
  if event.safety_related_message = some true then true
  else if event.message_type = some "Viktig trafikinformation" then true
  else false

/-! ## Road filter (`_normalize_road_filter_token`, `_road_filter_match`,
`_apply_road_filter`) -/

/-- Removal of the regex match `^(väg|vag|road)\s+` (the token is already
lower-cased at this point). -/
def stripRoadWordAux (l : List Char) (w : List Char) : Option (List Char) :=
  if w.isPrefixOf l then
    let rest := l.drop w.length
    if (rest.head?.map isPyWs).getD false then some (rest.dropWhile isPyWs) else none
  else none

def stripRoadWord (l : List Char) : List Char :=
  match stripRoadWordAux l "väg".data with
  | some r => r
  | none =>
    match stripRoadWordAux l "vag".data with
    | some r => r
    | none =>
      match stripRoadWordAux l "road".data with
      | some r => r
      | none => l

/-- Replacement of each maximal whitespace run by a single space
(the regex substitution `\s+` → `" "`).  The `fuel` argument only bounds
the recursion; instantiated with the input length it is never exhausted,
since every step consumes at least one character. -/
def collapseWsAux : Nat → List Char → List Char
  | 0, _ => []
  | _ + 1, [] => []
  | fuel + 1, c :: cs =>
    if isPyWs c then ' ' :: collapseWsAux fuel (cs.dropWhile isPyWs)
    else c :: collapseWsAux fuel cs

def collapseWs (l : List Char) : List Char :=
  collapseWsAux l.length l

/-- Model of `_normalize_road_filter_token`. -/
def normalize_road_filter_token (value : String) : String :=
  let s := pyLower (pyStripS value)
  if s = "" then ""
  else
    let s1 := stripRoadWord s.data
    pyStripS ⟨collapseWs s1⟩

/-- Lower-cased road free text `f"{road_name} {road_number}".lower ()`. -/
def roadTextOf (event : TrafikinfoEvent) : String :=
  pyLower ((event.road_name.getD "") ++ " " ++ (event.road_number.getD ""))

/-- Normalized road number `(road_number or "").strip ().lower ()`. -/
def roadNoOf (event : TrafikinfoEvent) : String :=
  pyLower (pyStripS (event.road_number.getD ""))

/-- Model of `_road_filter_match`. -/
def road_filter_match (event : TrafikinfoEvent) (tokens : List String) : Bool :=
  if tokens = [] then true
  else
    tokens.any (fun t =>
      decide (t ≠ "") &&
        ((decide (roadNoOf event ≠ "") && decide (t = roadNoOf event)) ||
          strContains (roadTextOf event) t))

/-- Selection loop of `_apply_road_filter`. -/
def roadFilterLoop (tokens : List String) : List TrafikinfoEvent → List TrafikinfoEvent
  | [] => []
  | e :: rest =>
    if is_important_without_geo e then e :: roadFilterLoop tokens rest
    else if road_filter_match e tokens then e :: roadFilterLoop tokens rest
    else roadFilterLoop tokens rest

/-- Normalized nonempty road-filter tokens of a configuration. -/
def normTokens (c : TrafikinfoCoordinator) : List String :=
  (c.filter_roads.map normalize_road_filter_token).filter (fun t => t ≠ "")

/-- Model of `_apply_road_filter`. -/
def apply_road_filter (c : TrafikinfoCoordinator) (events : List TrafikinfoEvent) :
    List TrafikinfoEvent :=
  if c.filter_roads = [] then events
  else
    let tokens := normTokens c
    if tokens = [] then events
    else roadFilterLoop tokens events

/-! ## Distances (`event_distance_km`) and inclusion (`_in_radius`,
`_in_counties`, `_include_event`) -/

/-- Running-minimum loop (`best` accumulator of `event_distance_km`). -/
def minLoop : Option ℚ → List ℚ → Option ℚ
  | best, [] => best
  | best, d :: rest =>
    minLoop (match best with
      | none => some d
      | some b => if d < b then some d else some b) rest

/-- Model of `event_distance_km`: minimum distance from the sorting
reference point to the (capped) geometry points. -/
def event_distance_km (c : TrafikinfoCoordinator) (event : TrafikinfoEvent) : Option ℚ :=
  if event.geometry_wgs84.getD "" = "" then none
  else
    let pts := wkt_points event.geometry_wgs84
    if pts = [] then none
    else
      minLoop none
        ((pts.take 200).map (fun p => c.haversine_km c.sort_longitude c.sort_latitude p.1 p.2))

/-- Model of `_in_radius` (coordinate inclusion policy; uses the
configured filter center and the 0.1 km radius floor). -/
def in_radius (c : TrafikinfoCoordinator) (event : TrafikinfoEvent) : Bool :=
  if event.geometry_wgs84.getD "" = "" then is_important_without_geo event
  else
    let pts := wkt_points event.geometry_wgs84
    if pts = [] then false
    else
      (pts.take 200).any (fun p =>
        c.haversine_km c.longitude c.latitude p.1 p.2 ≤ max (mkRat 1 10) c.radius_km)

/-- Model of `_in_counties` (region inclusion policy). -/
def in_counties (c : TrafikinfoCoordinator) (event : TrafikinfoEvent) : Bool :=
  if COUNTY_ALL ∈ c.counties then true
  else if c.counties = [] then false
  else if event.county_no = [] then is_important_without_geo event
  else event.county_no.any (fun n => toString n ∈ c.counties)

/-- Model of `_include_event`. -/
def include_event (c : TrafikinfoCoordinator) (event : TrafikinfoEvent) : Bool :=
  if c.filter_mode = FILTER_MODE_COUNTY then in_counties c event
  else in_radius c event

/-! ## Sorting (`sort_events` and the `_parse_response` default order) -/

/-- Publication time with a missing value replaced by `datetime.min`
(the `or datetime.min` fallback of both newest-sort keys). -/
def pubOrMin (e : TrafikinfoEvent) : Datetime := e.publication_time.getD 0

/-- Identifier fallback `situation_id or ""`, compared as Python compares
strings (lexicographically by code point, i.e. as `List Char`). -/
def sidOrEmpty (e : TrafikinfoEvent) : List Char := (e.situation_id.getD "").data

def didOrEmpty (e : TrafikinfoEvent) : List Char := (e.deviation_id.getD "").data

/-- Key of `_sort_key` / `_k_newest`: `(publication_time or min, sid, did)`. -/
def keyNewest (e : TrafikinfoEvent) : Datetime ×ₗ List Char ×ₗ List Char :=
  toLex (pubOrMin e, toLex (sidOrEmpty e, didOrEmpty e))

/-- Model of `_pub_ts`: `publication_time.timestamp ()` as a rational,
`0.0` when missing (note `0.0` is the Unix epoch, not `datetime.min`). -/
def pub_ts (e : TrafikinfoEvent) : ℚ :=
  match e.publication_time with
  | none => 0
  | some t => mkRat ((t : ℤ) - epochOffsetSeconds) 1

/-- Key of `_k_nearest` built from a (possibly cache-supplied) distance:
`(missing, dval, -pub_ts, sid, did)`. -/
def keyNearestOf (e : TrafikinfoEvent) (d : Option ℚ) :
    Nat ×ₗ WithTop ℚ ×ₗ ℚ ×ₗ List Char ×ₗ List Char :=
  toLex ((if d = none then 1 else 0),
    toLex ((match d with | none => (⊤ : WithTop ℚ) | some x => (x : WithTop ℚ)),
      toLex (-pub_ts e, toLex (sidOrEmpty e, didOrEmpty e))))

/-- Key of `_k_relevance`: `(important, missing, dval, -pub_ts, sid, did)`. -/
def keyRelevanceOf (e : TrafikinfoEvent) (d : Option ℚ) :
    Nat ×ₗ Nat ×ₗ WithTop ℚ ×ₗ ℚ ×ₗ List Char ×ₗ List Char :=
  toLex ((if is_important_without_geo e then 0 else 1), keyNearestOf e d)

/-- Model of Python `sorted (xs, key=key)` (a stable ascending sort by a
totally ordered key). -/
def pySortedUp {α κ : Type} [LinearOrder κ] (key : α → κ) (l : List α) : List α :=
  @List.insertionSort α (fun a b => key a ≤ key b)
    (fun a b => inferInstanceAs (Decidable (key a ≤ key b))) l

/-- Model of Python `sorted (xs, key=key, reverse=True)` (a stable
descending sort by a totally ordered key; ties keep input order). -/
def pySortedDown {α κ : Type} [LinearOrder κ] (key : α → κ) (l : List α) : List α :=
  @List.insertionSort α (fun a b => key b ≤ key a)
    (fun a b => inferInstanceAs (Decidable (key b ≤ key a))) l

/-- Identity pair of an event: the `dist_cache` key `(situation_id,
deviation_id)`. -/
def pairOf (e : TrafikinfoEvent) : Option String × Option String :=
  (e.situation_id, e.deviation_id)

/-- Lookup in the `dist_cache` association list. -/
def cacheLookup (k : Option String × Option String) :
    List ((Option String × Option String) × Option ℚ) → Option (Option ℚ)
  | [] => none
  | kv :: rest => if kv.1 = k then some kv.2 else cacheLookup k rest

/-- Memoized per-event distance computation: CPython precomputes sort
keys in input order, each `_dist` call consulting and extending
`dist_cache`. -/
def computeDistsGo (c : TrafikinfoCoordinator)
    (cache : List ((Option String × Option String) × Option ℚ)) :
    List TrafikinfoEvent → List (TrafikinfoEvent × Option ℚ)
  | [] => []
  | e :: rest =>
    match cacheLookup (pairOf e) cache with
    | some d => (e, d) :: computeDistsGo c cache rest
    | none =>
      let d := event_distance_km c e
      (e, d) :: computeDistsGo c ((pairOf e, d) :: cache) rest

def computeDists (c : TrafikinfoCoordinator) (events : List TrafikinfoEvent) :
    List (TrafikinfoEvent × Option ℚ) :=
  computeDistsGo c [] events

/-- Model of `sort_events`. -/
def sort_events (c : TrafikinfoCoordinator) (events : List TrafikinfoEvent) :
    List TrafikinfoEvent :=
  if events = [] then []
  else if c.sort_mode = SORT_MODE_NEWEST then
    pySortedDown keyNewest events
  else
    let decorated := computeDists c events
    if c.sort_mode = SORT_MODE_NEAREST then
      (pySortedUp (fun p => keyNearestOf p.1 p.2) decorated).map Prod.fst
    else
      (pySortedUp (fun p => keyRelevanceOf p.1 p.2) decorated).map Prod.fst

/-! ## Response parsing (`_parse_response`) -/

/-- One `Deviation` element of a non-deleted `Situation`: `None` when the
deviation is suspended or already ended, otherwise the flattened event. -/
def build_event (pd : String → Option Datetime) (now : Datetime)
    (situation_id : Option String) (pub_time version_time modified_time : Option Datetime)
    (dev : Xml) : Option TrafikinfoEvent :=
  let suspended := as_bool (findtextPath dev ["Suspended"])
  if suspended = some true then none
  else
    let end_time := as_dt pd (findtextPath dev ["EndTime"])
    if (match end_time with | some t => decide (t < now) | none => false) then none
    else
      some
        { situation_id := situation_id
          deviation_id := pyStrip (findtextPath dev ["Id"])
          icon_id := pyStrip (findtextPath dev ["IconId"])
          message_type := pyStrip (findtextPath dev ["MessageType"])
          message_type_value := pyStrip (findtextPath dev ["MessageTypeValue"])
          header := pyStrip (findtextPath dev ["Header"])
          message := pyStrip (findtextPath dev ["Message"])
          severity_code := as_int (findtextPath dev ["SeverityCode"])
          severity_text := pyStrip (findtextPath dev ["SeverityText"])
          road_number := pyStrip (findtextPath dev ["RoadNumber"])
          road_name := pyStrip (findtextPath dev ["RoadName"])
          county_no := (dev.childrenTag "CountyNo").filterMap (fun cx => as_int cx.text)
          affected_direction := pyStrip (findtextPath dev ["AffectedDirection"])
          affected_direction_value := pyStrip (findtextPath dev ["AffectedDirectionValue"])
          start_time := as_dt pd (findtextPath dev ["StartTime"])
          end_time := end_time
          valid_until_further_notice := as_bool (findtextPath dev ["ValidUntilFurtherNotice"])
          suspended := suspended
          location_descriptor := pyStrip (findtextPath dev ["LocationDescriptor"])
          positional_description := pyStrip (findtextPath dev ["PositionalDescription"])
          traffic_restriction_type := pyStrip (findtextPath dev ["TrafficRestrictionType"])
          temporary_limit := pyStrip (findtextPath dev ["TemporaryLimit"])
          number_of_lanes_restricted := as_int (findtextPath dev ["NumberOfLanesRestricted"])
          safety_related_message := as_bool (findtextPath dev ["SafetyRelatedMessage"])
          weblink := pyStrip (findtextPath dev ["WebLink"])
          geometry_wgs84 :=
            pyStrip ((((dev.descTag "Geometry").map (fun g => g.descTag "WGS84")).flatten.head?).map
              elemFindtext)
          version_time := version_time
          publication_time := pub_time
          modified_time := modified_time }

/-- One `Situation` element: skipped entirely when `Deleted` parses true. -/
def parse_situation (pd : String → Option Datetime) (now : Datetime) (sit : Xml) :
    List TrafikinfoEvent :=
  if as_bool (findtextPath sit ["Deleted"]) = some true then []
  else
    let situation_id := pyStrip (findtextPath sit ["Id"])
    let pub_time := as_dt pd (findtextPath sit ["PublicationTime"])
    let version_time := as_dt pd (findtextPath sit ["VersionTime"])
    let modified_time := as_dt pd (findtextPath sit ["ModifiedTime"])
    (sit.childrenTag "Deviation").filterMap
      (build_event pd now situation_id pub_time version_time modified_time)

/-- Body of `_parse_response` on a successfully parsed document. -/
def parse_root (pd : String → Option Datetime) (now : Datetime) (root : Xml) :
    Except TrafikinfoErr TrafikinfoData :=
  let err_msg := (errorMessageOf root).getD ""
  if err_msg ≠ "" then
    if strContains (pyLower err_msg) "authentication" ∨
        strContains (pyLower err_msg) "invalid key" then
      .error (.authentication ("Authentication failed: " ++ pyStripS err_msg))
    else
      .error (.api ("Trafikverket API error: " ++ pyStripS err_msg))
  else
    let last_modified : Option Datetime :=
      match infoChild root "LASTMODIFIED" with
      | none => none
      | some el =>
        match attrGet el "datetime" with
        | none => none
        | some dr => if dr = "" then none else pd dr
    let last_change_id := pyStrip ((infoChild root "LASTCHANGEID").map elemFindtext)
    let sse_url := pyStrip ((infoChild root "SSEURL").map elemFindtext)
    let events := (root.descTag "Situation").flatMap (parse_situation pd now)
    let events := pySortedDown keyNewest events
    .ok { events := events, last_modified := last_modified,
          last_change_id := last_change_id, sse_url := sse_url }

/-- Model of `_parse_response`; the library call `ET.fromstring` is
abstracted as an `Except`-valued argument computed by the caller. -/
def parse_response (pd : String → Option Datetime) (now : Datetime)
    (doc : Except String Xml) : Except TrafikinfoErr TrafikinfoData :=
  match doc with
  | .error m => .error (.parse ("Invalid XML from Trafikverket: " ++ m))
  | .ok root => parse_root pd now root

/-! ## Update orchestrator (`_async_update_data`) -/

/-- Outcome of the network interaction inside the `try` block: a
response (status and body), a timeout, an `aiohttp.ClientError`, or any
other unexpected exception. -/
inductive FetchResult where
  | response (status : Nat) (body : String)
  | timeout
  | clientError (msg : String)
  | unexpectedError (msg : String)
deriving DecidableEq, Repr

/-- What one poll surfaces to the scheduling framework: a fresh snapshot,
the uniform `UpdateFailed` signal, or an exception escaping uncaught. -/
inductive UpdateOutcome where
  | ready (data : TrafikinfoData)
  | updateFailed (msg : String)
  | raised (e : TrafikinfoErr)
deriving DecidableEq, Repr

/-- Model of `_async_update_data`. -/
def async_update_data (c : TrafikinfoCoordinator) (fetch : FetchResult)
    (fromstring : String → Except String Xml) (pd : String → Option Datetime)
    (now : Datetime) : UpdateOutcome :=
  if c.api_key = "" then .raised (.authentication "Missing API key")
  else
    match fetch with
    | .timeout => .updateFailed "Request timeout - Trafikverket API not responding"
    | .clientError m => .updateFailed ("Connection error: " ++ m)
    | .unexpectedError m => .updateFailed ("Unexpected error fetching Trafikverket data: " ++ m)
    | .response status text =>
      if status = 401 ∨ status = 403 then
        .updateFailed ("Authentication failed: HTTP " ++ toString status)
      else if status ≠ 200 then
        .updateFailed ("Trafikverket API returned HTTP " ++ toString status ++ ": " ++
          text.take 300)
      else
        match parse_response pd now (fromstring text) with
        | .error e => .updateFailed e.message
        | .ok data =>
          let filtered := data.events.filter (include_event c)
          let filtered := apply_road_filter c filtered
          .ready { events := filtered, last_modified := data.last_modified,
                   last_change_id := data.last_change_id, sse_url := data.sse_url }

/-! ## Spec-side predicates used to state the claims -/

/-- Pairwise relation realised by the newest-first orders (parser default
order and `newest` sort mode): publication time descending with a missing
value treated as the minimum, ties broken by `situation_id` descending and
then `deviation_id` descending. -/
def newestAfterRel (a b : TrafikinfoEvent) : Prop :=
  pubOrMin b ≤ pubOrMin a ∧
  (pubOrMin a = pubOrMin b → sidOrEmpty b ≤ sidOrEmpty a) ∧
  (pubOrMin a = pubOrMin b → sidOrEmpty a = sidOrEmpty b → didOrEmpty b ≤ didOrEmpty a)

/-- Road-filter keep condition as the claim words it: some token exactly
equals the trimmed lower-cased road number, or occurs as a substring of
the lower-cased concatenation of road name and road number (read
literally: no separator). -/
def roadKeepClaimed (tokens : List String) (e : TrafikinfoEvent) : Bool :=
  is_important_without_geo e ||
    tokens.any (fun t =>
      decide (t = roadNoOf e) ||
        strContains (pyLower ((e.road_name.getD "") ++ (e.road_number.getD ""))) t)

/-- Road-filter keep condition realised by the code: the free text is the
space-separated concatenation `f"{road_name} {road_number}"`. -/
def roadKeepAmended (tokens : List String) (e : TrafikinfoEvent) : Bool :=
  tokens.any (fun t =>
    (decide (roadNoOf e ≠ "") && decide (t = roadNoOf e)) || strContains (roadTextOf e) t)

/-! ## Concrete fixtures used by witnesses and counterexamples -/

/-- Event with every optional field absent. -/
def baseEvent : TrafikinfoEvent :=
  { situation_id := none, deviation_id := none, icon_id := none, message_type := none,
    message_type_value := none, header := none, message := none, severity_code := none,
    severity_text := none, road_number := none, road_name := none, county_no := [],
    affected_direction := none, affected_direction_value := none, start_time := none,
    end_time := none, valid_until_further_notice := none, suspended := none,
    location_descriptor := none, positional_description := none,
    traffic_restriction_type := none, temporary_limit := none,
    number_of_lanes_restricted := none, safety_related_message := none, weblink := none,
    geometry_wgs84 := none, version_time := none, publication_time := none,
    modified_time := none }

/-- Baseline configuration. -/
def baseCoordinator : TrafikinfoCoordinator :=
  { api_key := "k", filter_roads := [], sort_mode := SORT_MODE_RELEVANCE,
    filter_mode := FILTER_MODE_COUNTY, counties := [COUNTY_ALL], latitude := 0,
    longitude := 0, sort_latitude := 0, sort_longitude := 0, radius_km := 25,
    haversine_km := fun _ _ _ _ => 0 }

def cNewest : TrafikinfoCoordinator := { baseCoordinator with sort_mode := SORT_MODE_NEWEST }

def evTieA : TrafikinfoEvent :=
  { baseEvent with situation_id := some "a", publication_time := some 100 }

def evTieB : TrafikinfoEvent :=
  { baseEvent with situation_id := some "b", publication_time := some 100 }

/-- Nearest-mode configuration whose abstract distance function maps
longitude 0 to distance 0 and anything else to 5. -/
def cNearest : TrafikinfoCoordinator :=
  { baseCoordinator with
      sort_mode := SORT_MODE_NEAREST
      haversine_km := fun _ _ lon _ => if lon = 0 then 0 else 5 }

def cRelevanceDup : TrafikinfoCoordinator :=
  { cNearest with sort_mode := SORT_MODE_RELEVANCE }

/-- Event with no geometry; its identifier pair is `(none, none)`. -/
def evDupNoGeo : TrafikinfoEvent := baseEvent

/-- Event sharing the `(none, none)` identifier pair but carrying parsable
geometry at the reference point (own distance 0). -/
def evDupGeo : TrafikinfoEvent := { baseEvent with geometry_wgs84 := some "POINT (0 0)" }

/-- Event with a distinct identifier pair and known distance 5. -/
def evFarGeo : TrafikinfoEvent :=
  { baseEvent with situation_id := some "x", geometry_wgs84 := some "POINT (1 1)" }

/-- Coordinate-mode configuration whose abstract distance function is the
constant 25, equal to the configured radius (boundary case). -/
def cBoundary : TrafikinfoCoordinator :=
  { baseCoordinator with
      filter_mode := FILTER_MODE_COORDINATE
      haversine_km := fun _ _ _ _ => 25 }

/-- Same configuration with every point 0.1 km beyond the radius. -/
def cBeyond : TrafikinfoCoordinator :=
  { cBoundary with haversine_km := fun _ _ _ _ => mkRat 251 10 }

def evGeoPoint : TrafikinfoEvent := { baseEvent with geometry_wgs84 := some "POINT (1 1)" }

/-- Safety-related event whose geometry string is present but yields no
WKT points. -/
def evBadGeo : TrafikinfoEvent :=
  { baseEvent with geometry_wgs84 := some "not wkt", safety_related_message := some true }

def cRegionEmpty : TrafikinfoCoordinator := { baseCoordinator with counties := [] }

def evImportantNoCounty : TrafikinfoEvent :=
  { baseEvent with safety_related_message := some true }

def cRoadsAB : TrafikinfoCoordinator := { baseCoordinator with filter_roads := ["ab"] }

/-- Non-important event with road name `a` and road number `b`: the token
`ab` occurs in the separator-free concatenation but not in the
space-separated free text. -/
def evConcatSplit : TrafikinfoEvent :=
  { baseEvent with road_name := some "a", road_number := some "b" }

def cRoads163 : TrafikinfoCoordinator := { baseCoordinator with filter_roads := ["163"] }

def ev163 : TrafikinfoEvent := { baseEvent with road_number := some "163" }

def evE4 : TrafikinfoEvent := { baseEvent with road_number := some "E4" }

def evE4safety : TrafikinfoEvent :=
  { baseEvent with road_number := some "E4", safety_related_message := some true }

/-- Concrete datetime parser for the fixtures: the 2030 instant maps to
2000, the 2024 instant to 1000, the 2020 instant to 500. -/
def pdFix : String → Option Datetime := fun s =>
  if s = "2030-01-01T00:00:00+00:00" then some 2000
  else if s = "2024-01-01T00:00:00+00:00" then some 1000
  else if s = "2020-01-01T00:00:00+00:00" then some 500
  else none

def devOf (suspended endtime : String) : Xml :=
  .elem "Deviation" [] none
    [.elem "Suspended" [] (some suspended) [],
     .elem "EndTime" [] (some endtime) [],
     .elem "Id" [] (some "d1") []]

def sitOf (deleted : String) (dev : Xml) : Xml :=
  .elem "Situation" [] none
    [.elem "Deleted" [] (some deleted) [],
     .elem "Id" [] (some "s1") [],
     .elem "PublicationTime" [] (some "2024-01-01T00:00:00+00:00") [],
     dev]

def docOf (sit : Xml) : Xml := .elem "RESPONSE" [] none [.elem "RESULT" [] none [sit]]

/-- Feed with one active deviation (not suspended, future end time). -/
def docActive : Xml := docOf (sitOf "false" (devOf "false" "2030-01-01T00:00:00+00:00"))

/-- Same feed with the deviation suspended. -/
def docSuspended : Xml := docOf (sitOf "false" (devOf "true" "2030-01-01T00:00:00+00:00"))

/-- Same feed with the end time in the past. -/
def docExpired : Xml := docOf (sitOf "false" (devOf "false" "2020-01-01T00:00:00+00:00"))

/-- Same feed with the situation soft-deleted. -/
def docDeleted : Xml := docOf (sitOf "true" (devOf "false" "2030-01-01T00:00:00+00:00"))

def docErrOf (msg : String) : Xml :=
  .elem "RESPONSE" [] none
    [.elem "ERROR" [] none [.elem "MESSAGE" [] (some msg) []]]

def docErrAuth : Xml := docErrOf "Invalid authentication key"

def docErrRate : Xml := docErrOf "rate limit exceeded"

def cNoKey : TrafikinfoCoordinator := { baseCoordinator with api_key := "" }

/-- Expected parse result of `docActive` under `pdFix` at instant 1500. -/
def dataActive : TrafikinfoData :=
  { events := [ { baseEvent with
      situation_id := some "s1"
      deviation_id := some "d1"
      suspended := some false
      end_time := some 2000
      publication_time := some 1000 } ]
    last_modified := none
    last_change_id := none
    sse_url := none }

/-! ## Sorting infrastructure lemmas -/

theorem pairwise_pySortedUp {α κ : Type} [LinearOrder κ] (key : α → κ) (l : List α) :
    (pySortedUp key l).Pairwise (fun a b => key a ≤ key b) := by
  haveI h1 : IsTotal α (fun a b => key a ≤ key b) := ⟨fun a b => le_total (key a) (key b)⟩
  haveI h2 : IsTrans α (fun a b => key a ≤ key b) := ⟨fun a b c hab hbc => le_trans hab hbc⟩
  exact @List.sorted_insertionSort α (fun a b => key a ≤ key b)
    (fun a b => inferInstanceAs (Decidable (key a ≤ key b))) h1 h2 l

theorem pairwise_pySortedDown {α κ : Type} [LinearOrder κ] (key : α → κ) (l : List α) :
    (pySortedDown key l).Pairwise (fun a b => key b ≤ key a) := by
  haveI h1 : IsTotal α (fun a b => key b ≤ key a) := ⟨fun a b => le_total (key b) (key a)⟩
  haveI h2 : IsTrans α (fun a b => key b ≤ key a) := ⟨fun a b c hab hbc => le_trans hbc hab⟩
  exact @List.sorted_insertionSort α (fun a b => key b ≤ key a)
    (fun a b => inferInstanceAs (Decidable (key b ≤ key a))) h1 h2 l

theorem mem_pySortedUp {α κ : Type} [LinearOrder κ] (key : α → κ) {l : List α} {x : α} :
    x ∈ pySortedUp key l ↔ x ∈ l :=
  @List.mem_insertionSort α (fun a b => key a ≤ key b)
    (fun a b => inferInstanceAs (Decidable (key a ≤ key b))) l x

theorem mem_pySortedDown {α κ : Type} [LinearOrder κ] (key : α → κ) {l : List α} {x : α} :
    x ∈ pySortedDown key l ↔ x ∈ l :=
  @List.mem_insertionSort α (fun a b => key b ≤ key a)
    (fun a b => inferInstanceAs (Decidable (key b ≤ key a))) l x

/-! ## Distance-cache characterization -/

theorem cacheLookup_nil (k : Option String × Option String) : cacheLookup k [] = none := rfl

/-- Main cache invariant: when `cache` tabulates exactly the distances of
first occurrences among `seen`, the decorated list pairs every event with
the distance of the first event of `seen ++ evs` sharing its identifier
pair. -/
theorem computeDistsGo_spec (c : TrafikinfoCoordinator) :
    ∀ (evs seen : List TrafikinfoEvent)
      (cache : List ((Option String × Option String) × Option ℚ)),
      (∀ k, cacheLookup k cache =
        (seen.find? (fun x => decide (pairOf x = k))).map (event_distance_km c)) →
      computeDistsGo c cache evs =
        evs.map (fun e => (e, event_distance_km c
          (((seen ++ evs).find? (fun x => decide (pairOf x = pairOf e))).getD e)))
  | [], _, _, _ => by simp [computeDistsGo]
  | e :: rest, seen, cache, h => by
    have hl := h (pairOf e)
    cases hfind : seen.find? (fun x => decide (pairOf x = pairOf e)) with
    | some x =>
      rw [hfind] at hl
      have hmain : (seen ++ e :: rest).find? (fun y => decide (pairOf y = pairOf e)) = some x := by
        rw [List.find?_append, hfind]
        rfl
      have hrec := computeDistsGo_spec c rest (seen ++ [e]) cache (by
        intro k
        rw [h k, List.find?_append]
        cases hk : seen.find? (fun x => decide (pairOf x = k)) with
        | some y => rfl
        | none =>
          by_cases hke : pairOf e = k
          · subst hke
            rw [hk] at hfind
            exact absurd hfind (by simp)
          · simp [List.find?, hke])
      simp only [computeDistsGo, hl, List.map_cons, hmain, Option.getD_some]
      rw [hrec]
      have happ : seen ++ [e] ++ rest = seen ++ e :: rest := by
        simp [List.append_assoc]
      rw [happ]
      simp [Option.map]
    | none =>
      rw [hfind] at hl
      have hmain : (seen ++ e :: rest).find? (fun y => decide (pairOf y = pairOf e)) = some e := by
        rw [List.find?_append, hfind]
        simp [List.find?]
      have hrec := computeDistsGo_spec c rest (seen ++ [e])
        ((pairOf e, event_distance_km c e) :: cache) (by
          intro k
          rw [List.find?_append]
          by_cases hke : pairOf e = k
          · subst hke
            rw [hfind]
            simp [cacheLookup, List.find?]
          · have : cacheLookup k ((pairOf e, event_distance_km c e) :: cache) =
                cacheLookup k cache := by
              simp [cacheLookup, hke]
            rw [this, h k]
            cases hk : seen.find? (fun x => decide (pairOf x = k)) with
            | some y => rfl
            | none => simp [List.find?, hke])
      simp only [computeDistsGo, hl, List.map_cons, hmain, Option.getD_some]
      rw [hrec]
      have happ : seen ++ [e] ++ rest = seen ++ e :: rest := by
        simp [List.append_assoc]
      rw [happ]
      simp [Option.map]

/-- The decorated list pairs each event with the distance computed for
the first event of the input sharing its `(situation_id, deviation_id)`
pair. -/
theorem computeDists_spec (c : TrafikinfoCoordinator) (evs : List TrafikinfoEvent) :
    computeDists c evs = evs.map (fun e => (e, event_distance_km c
      ((evs.find? (fun x => decide (pairOf x = pairOf e))).getD e))) := by
  have h := computeDistsGo_spec c evs [] [] (by intro k; rfl)
  simpa using h

theorem find?_pairOf_nodup :
    ∀ {evs : List TrafikinfoEvent}, (evs.map pairOf).Nodup → ∀ {e}, e ∈ evs →
      evs.find? (fun x => decide (pairOf x = pairOf e)) = some e
  | [], _, _, he => absurd he (by simp)
  | a :: rest, h, e, he => by
    rcases List.mem_cons.1 he with rfl | hmem
    · simp [List.find?]
    · have hpair : pairOf a ≠ pairOf e := by
        intro hne
        have : pairOf e ∈ rest.map pairOf := List.mem_map_of_mem pairOf hmem
        rw [← hne] at this
        exact (List.nodup_cons.1 (by simpa using h)).1 this
      have htail := find?_pairOf_nodup (List.nodup_cons.1 (by simpa using h)).2 hmem
      simp [List.find?, hpair, htail]

/-- With pairwise-distinct identifier pairs the cache is transparent:
every event is decorated with its own distance. -/
theorem computeDists_of_nodup (c : TrafikinfoCoordinator) {evs : List TrafikinfoEvent}
    (h : (evs.map pairOf).Nodup) :
    computeDists c evs = evs.map (fun e => (e, event_distance_km c e)) := by
  rw [computeDists_spec]
  apply List.map_congr_left
  intro e he
  rw [find?_pairOf_nodup h he]
  rfl

/-! ## Lexicographic key consequences -/

theorem fst_le_of_lexLe {α β : Type} [PartialOrder α] [LE β] {p q : α × β}
    (h : toLex p ≤ toLex q) : p.1 ≤ q.1 := by
  rcases (Prod.Lex.le_iff p q).1 h with hlt | ⟨he, _⟩
  · exact le_of_lt hlt
  · exact le_of_eq he

theorem snd_le_of_lexLe {α β : Type} [PartialOrder α] [LE β] {p q : α × β}
    (h : toLex p ≤ toLex q) (he : p.1 = q.1) : p.2 ≤ q.2 := by
  rcases (Prod.Lex.le_iff p q).1 h with hlt | ⟨_, h2⟩
  · rw [he] at hlt
    exact absurd hlt (lt_irrefl _)
  · exact h2

/-! ## Key-consequence lemmas -/

theorem keyNewest_le_pub {a b : TrafikinfoEvent} (h : keyNewest b ≤ keyNewest a) :
    pubOrMin b ≤ pubOrMin a := by
  simp only [keyNewest] at h
  exact fst_le_of_lexLe h

theorem keyNewest_le_sid {a b : TrafikinfoEvent} (h : keyNewest b ≤ keyNewest a)
    (he : pubOrMin a = pubOrMin b) : sidOrEmpty b ≤ sidOrEmpty a := by
  simp only [keyNewest] at h
  exact fst_le_of_lexLe (snd_le_of_lexLe h he.symm)

theorem keyNewest_le_did {a b : TrafikinfoEvent} (h : keyNewest b ≤ keyNewest a)
    (he : pubOrMin a = pubOrMin b) (hs : sidOrEmpty a = sidOrEmpty b) :
    didOrEmpty b ≤ didOrEmpty a := by
  simp only [keyNewest] at h
  exact snd_le_of_lexLe (snd_le_of_lexLe h he.symm) hs.symm

theorem keyNearestOf_le_none {a b : TrafikinfoEvent} {da db : Option ℚ}
    (h : keyNearestOf a da ≤ keyNearestOf b db) (hda : da = none) : db = none := by
  subst hda
  by_cases hdb : db = none
  · exact hdb
  · exfalso
    simp only [keyNearestOf] at h
    have h1 := fst_le_of_lexLe h
    simp [hdb] at h1

theorem keyNearestOf_le_dist {a b : TrafikinfoEvent} {x y : ℚ}
    (h : keyNearestOf a (some x) ≤ keyNearestOf b (some y)) : x ≤ y := by
  simp only [keyNearestOf] at h
  have h1 : ((if (some x : Option ℚ) = none then 1 else 0) : Nat) =
      (if (some y : Option ℚ) = none then 1 else 0) := by simp
  have h2 := snd_le_of_lexLe h h1
  have h3 := fst_le_of_lexLe h2
  have h4 : (x : WithTop ℚ) ≤ (y : WithTop ℚ) := h3
  exact WithTop.coe_le_coe.1 h4

theorem keyRelevanceOf_le_imp {a b : TrafikinfoEvent} {da db : Option ℚ}
    (h : keyRelevanceOf a da ≤ keyRelevanceOf b db)
    (hb : is_important_without_geo b = true) : is_important_without_geo a = true := by
  simp only [keyRelevanceOf] at h
  have h1 := fst_le_of_lexLe h
  by_cases ha : is_important_without_geo a
  · exact ha
  · exfalso
    simp [ha, hb] at h1

/-! ## Parser structure lemmas -/

theorem parse_root_ok_events {pd : String → Option Datetime} {now : Datetime} {root : Xml}
    {d : TrafikinfoData} (h : parse_root pd now root = .ok d) :
    d.events = pySortedDown keyNewest
      ((root.descTag "Situation").flatMap (parse_situation pd now)) := by
  unfold parse_root at h
  by_cases hm : (errorMessageOf root).getD "" ≠ ""
  · rw [if_pos hm] at h
    split at h <;> exact Except.noConfusion h
  · rw [if_neg hm] at h
    have hd := Except.ok.inj h
    subst hd
    rfl

theorem build_event_some {pd : String → Option Datetime} {now : Datetime}
    {sid : Option String} {pt vt mt : Option Datetime} {dev : Xml} {e : TrafikinfoEvent}
    (h : build_event pd now sid pt vt mt dev = some e) :
    e.suspended ≠ some true ∧ ∀ t, e.end_time = some t → ¬ t < now := by
  unfold build_event at h
  by_cases hsus : as_bool (findtextPath dev ["Suspended"]) = some true
  · rw [if_pos hsus] at h
    exact Option.noConfusion h
  · rw [if_neg hsus] at h
    by_cases hend : (match as_dt pd (findtextPath dev ["EndTime"]) with
        | some t => decide (t < now)
        | none => false) = true
    · rw [if_pos hend] at h
      exact Option.noConfusion h
    · rw [if_neg hend] at h
      have he := Option.some.inj h
      subst he
      refine ⟨by simpa using hsus, ?_⟩
      intro t ht hlt
      apply hend
      simp only at ht
      rw [ht]
      simpa using hlt

theorem parse_situation_mem {pd : String → Option Datetime} {now : Datetime} {sit : Xml}
    {e : TrafikinfoEvent} (he : e ∈ parse_situation pd now sit) :
    ∃ sid pt vt mt dev, build_event pd now sid pt vt mt dev = some e := by
  unfold parse_situation at he
  split at he
  · exact absurd he (by simp)
  · obtain ⟨dev, _, hb⟩ := List.mem_filterMap.1 he
    exact ⟨_, _, _, _, dev, hb⟩

/-- Events of a successful parse never carry `suspended = true` and never
carry an end time strictly before the parse instant. -/
theorem parse_root_ok_invariant {pd : String → Option Datetime} {now : Datetime}
    {root : Xml} {d : TrafikinfoData} (h : parse_root pd now root = .ok d) :
    ∀ e ∈ d.events, e.suspended ≠ some true ∧ ∀ t, e.end_time = some t → ¬ t < now := by
  intro e he
  rw [parse_root_ok_events h] at he
  have he2 := (mem_pySortedDown keyNewest).1 he
  obtain ⟨sit, _, hsit⟩ := List.mem_flatMap.1 he2
  obtain ⟨_, _, _, _, _, hb⟩ := parse_situation_mem hsit
  exact build_event_some hb

/-! ## Road-filter structure lemmas -/

theorem road_any_congr (e : TrafikinfoEvent) :
    ∀ tokens : List String, (∀ t ∈ tokens, t ≠ "") →
      tokens.any (fun t =>
        decide (t ≠ "") &&
          ((decide (roadNoOf e ≠ "") && decide (t = roadNoOf e)) ||
            strContains (roadTextOf e) t)) = roadKeepAmended tokens e
  | [], _ => rfl
  | t :: ts, hall => by
    have ht : t ≠ "" := hall t (by simp)
    have ih := road_any_congr e ts (fun x hx => hall x (List.mem_cons_of_mem _ hx))
    simp only [roadKeepAmended, List.any_cons] at ih ⊢
    rw [ih]
    congr 1
    simp [ht]

theorem road_filter_match_eq_amended {e : TrafikinfoEvent} {tokens : List String}
    (hne : tokens ≠ []) (hall : ∀ t ∈ tokens, t ≠ "") :
    road_filter_match e tokens = roadKeepAmended tokens e := by
  unfold road_filter_match
  rw [if_neg hne]
  exact road_any_congr e tokens hall

theorem roadFilterLoop_eq_filter {tokens : List String} (hne : tokens ≠ [])
    (hall : ∀ t ∈ tokens, t ≠ "") :
    ∀ evs : List TrafikinfoEvent,
      roadFilterLoop tokens evs =
        evs.filter (fun e => is_important_without_geo e || roadKeepAmended tokens e)
  | [] => rfl
  | e :: rest => by
    have ih := roadFilterLoop_eq_filter hne hall rest
    simp only [roadFilterLoop, List.filter]
    by_cases hi : is_important_without_geo e
    · simp [hi, ih]
    · rw [road_filter_match_eq_amended hne hall]
      by_cases hm : roadKeepAmended tokens e
      · simp [hi, hm, ih]
      · simp [hi, hm, ih]

theorem normTokens_ne_empty {c : TrafikinfoCoordinator} {t : String}
    (ht : t ∈ normTokens c) : t ≠ "" := by
  have := List.of_mem_filter ht
  simpa using this

/-! ## Sorted-output transport lemma -/

theorem pairwise_fst_of_sorted_pairs {κ : Type} [LinearOrder κ]
    (c : TrafikinfoCoordinator) (evs : List TrafikinfoEvent)
    (k2 : TrafikinfoEvent × Option ℚ → κ) (R : TrafikinfoEvent → TrafikinfoEvent → Prop)
    (him : ∀ a b, k2 (a, event_distance_km c a) ≤ k2 (b, event_distance_km c b) → R a b)
    (h : (evs.map pairOf).Nodup) :
    ((pySortedUp k2 (computeDists c evs)).map Prod.fst).Pairwise R := by
  rw [computeDists_of_nodup c h]
  have hp := pairwise_pySortedUp k2 (evs.map (fun e => (e, event_distance_km c e)))
  have hmem : ∀ p ∈ pySortedUp k2 (evs.map (fun e => (e, event_distance_km c e))),
      p.2 = event_distance_km c p.1 := by
    intro p hp'
    have hpm := (mem_pySortedUp k2).1 hp'
    obtain ⟨e, _, he⟩ := List.mem_map.1 hpm
    rw [← he]
  have hp2 : (pySortedUp k2 (evs.map (fun e => (e, event_distance_km c e)))).Pairwise
      (fun p q => R p.1 q.1) := by
    refine List.Pairwise.imp_of_mem ?_ hp
    intro p q hpmem hqmem hle
    have hpe : (p.1, event_distance_km c p.1) = p := by
      rw [← hmem p hpmem]
    have hqe : (q.1, event_distance_km c q.1) = q := by
      rw [← hmem q hqmem]
    apply him
    rw [hpe, hqe]
    exact hle
  exact List.pairwise_map.mpr hp2

/-! ## Claim theorems -/

/-- C1 (counterexample): on two events with equal publication times and
situation ids `a` and `b`, the `newest` sort places `b` first, while the
claim says the smaller situation id `a` comes first. -/
theorem C1_counterexample :
    sort_events cNewest [evTieA, evTieB] = [evTieB, evTieA] ∧
    evTieA.publication_time = evTieB.publication_time ∧
    evTieA.situation_id = some "a" ∧ evTieB.situation_id = some "b" ∧
    sidOrEmpty evTieA < sidOrEmpty evTieB := by
  decide

/-- C1 (amended): the response parser's default order and the `newest`
sort mode order the event list by publicationTime descending (missing
treated as the minimum possible timestamp, hence sorting last), with ties
broken by situationId descending and then deviationId descending. -/
theorem C1_default_order_desc :
    (∀ (pd : String → Option Datetime) (now : Datetime) (root : Xml) (d : TrafikinfoData),
      parse_response pd now (.ok root) = .ok d → d.events.Pairwise newestAfterRel) ∧
    (∀ (c : TrafikinfoCoordinator) (evs : List TrafikinfoEvent),
      c.sort_mode = SORT_MODE_NEWEST → (sort_events c evs).Pairwise newestAfterRel) := by
  have hsorted : ∀ l : List TrafikinfoEvent,
      (pySortedDown keyNewest l).Pairwise newestAfterRel := by
    intro l
    refine (pairwise_pySortedDown keyNewest l).imp ?_
    intro a b h
    exact ⟨keyNewest_le_pub h, fun he => keyNewest_le_sid h he,
      fun he hs => keyNewest_le_did h he hs⟩
  constructor
  · intro pd now root d h
    rw [parse_root_ok_events h]
    exact hsorted _
  · intro c evs hmode
    by_cases hevs : evs = []
    · simp [sort_events, hevs]
    · have hs : sort_events c evs = pySortedDown keyNewest evs := by
        unfold sort_events
        rw [if_neg hevs, hmode, if_pos rfl]
      rw [hs]
      exact hsorted evs

/-- C1 (witness): the amended theorem applied to the concrete active feed
and to a concrete two-event list in `newest` mode. -/
theorem C1_witness :
    (parse_response pdFix 1500 (.ok docActive) = .ok dataActive ∧
      dataActive.events.Pairwise newestAfterRel) ∧
    (cNewest.sort_mode = SORT_MODE_NEWEST ∧
      (sort_events cNewest [evTieA, evTieB]).Pairwise newestAfterRel) :=
  ⟨⟨by decide, C1_default_order_desc.1 pdFix 1500 docActive dataActive (by decide)⟩,
   ⟨by decide, C1_default_order_desc.2 cNewest [evTieA, evTieB] (by decide)⟩⟩

/-- C3: under the coordinate inclusion policy an event with nonempty
geometry is included iff one of its first 200 parsed points is within the
(0.1 km-floored) radius of the configured center — the boundary case is
included — and an event without geometry is included iff it is
important-without-geo; concretely, a point exactly at the radius is kept
and a point 0.1 km beyond it is dropped. -/
theorem C3_in_radius_characterization :
    (∀ (c : TrafikinfoCoordinator) (e : TrafikinfoEvent),
      in_radius c e = true ↔
        (if e.geometry_wgs84.getD "" = "" then is_important_without_geo e = true
         else ∃ p ∈ (wkt_points e.geometry_wgs84).take 200,
           c.haversine_km c.longitude c.latitude p.1 p.2 ≤ max (mkRat 1 10) c.radius_km)) ∧
    in_radius cBoundary evGeoPoint = true ∧
    in_radius cBeyond evGeoPoint = false := by
  refine ⟨?_, by decide, by decide⟩
  intro c e
  unfold in_radius
  by_cases hg : e.geometry_wgs84.getD "" = ""
  · simp [hg]
  · rw [if_neg hg, if_neg hg]
    by_cases hpts : wkt_points e.geometry_wgs84 = []
    · simp [hpts]
    · rw [if_neg hpts]
      simp [List.any_eq_true]

/-- C4: a nonempty geometry string from which the WKT scanner extracts no
points makes the coordinate-mode inclusion check false, regardless of the
importance flags. -/
theorem C4_unparsable_geometry_excluded :
    ∀ (c : TrafikinfoCoordinator) (e : TrafikinfoEvent) (s : String),
      e.geometry_wgs84 = some s → s ≠ "" → wkt_points (some s) = [] →
      in_radius c e = false := by
  intro c e s hg hs hw
  unfold in_radius
  rw [hg]
  simp only [Option.getD_some]
  rw [if_neg hs, hw]
  simp

/-- C4 (witness): a safety-related event with unparsable geometry is
excluded by the coordinate filter. -/
theorem C4_witness :
    evBadGeo.geometry_wgs84 = some "not wkt" ∧ ("not wkt" : String) ≠ "" ∧
    wkt_points (some "not wkt") = [] ∧ is_important_without_geo evBadGeo = true ∧
    in_radius cBoundary evBadGeo = false :=
  ⟨by decide, by decide, by decide, by decide,
   C4_unparsable_geometry_excluded cBoundary evBadGeo "not wkt" (by decide) (by decide)
     (by decide)⟩

/-- C5: region inclusion is characterized by the all-regions sentinel, the
empty-set short circuit, the important-without-geo fallback for events
without county codes, and string membership of some county code; the
important-without-geo predicate holds iff the safety flag is true or the
message type is the designated literal; an important event is still
excluded when the configured region set is empty. -/
theorem C5_region_policy :
    (∀ (c : TrafikinfoCoordinator) (e : TrafikinfoEvent),
      in_counties c e = true ↔
        (COUNTY_ALL ∈ c.counties ∨
          (c.counties ≠ [] ∧
            ((e.county_no = [] ∧ is_important_without_geo e = true) ∨
             (e.county_no ≠ [] ∧ ∃ n ∈ e.county_no, toString n ∈ c.counties))))) ∧
    (∀ e : TrafikinfoEvent, is_important_without_geo e = true ↔
      (e.safety_related_message = some true ∨
        e.message_type = some "Viktig trafikinformation")) ∧
    in_counties cRegionEmpty evImportantNoCounty = false := by
  refine ⟨?_, ?_, by decide⟩
  · intro c e
    unfold in_counties
    by_cases hall : COUNTY_ALL ∈ c.counties
    · simp [hall]
    · rw [if_neg hall]
      by_cases hemp : c.counties = []
      · simp [hall, hemp]
      · rw [if_neg hemp]
        by_cases hcn : e.county_no = []
        · simp [hall, hemp, hcn]
        · rw [if_neg hcn]
          simp [hall, hemp, hcn, List.any_eq_true]
  · intro e
    unfold is_important_without_geo
    by_cases h1 : e.safety_related_message = some true
    · simp [h1]
    · by_cases h2 : e.message_type = some "Viktig trafikinformation"
      · simp [h1, h2]
      · simp [h1, h2]


/-- C6 (counterexample): with configured token `ab` and a non-important
event with road name `a` and road number `b`, the token occurs in the
separator-free concatenation `ab` — so the claim as stated keeps the
event — but the code drops it (its free text is the space-separated
`a b`). -/
theorem C6_counterexample :
    normTokens cRoadsAB = ["ab"] ∧
    is_important_without_geo evConcatSplit = false ∧
    roadKeepClaimed (normTokens cRoadsAB) evConcatSplit = true ∧
    apply_road_filter cRoadsAB [evConcatSplit] = [] := by
  decide

/-- C6 (amended): the road filter is the identity when no configured
token survives normalization, and otherwise keeps exactly the events that
are important-without-geo or match some normalized token — by exact
equality with the trimmed lower-cased road number or by substring of the
lower-cased space-separated concatenation of road name and road number.
Token `163` keeps `roadNumber="163"`; `roadNumber="E4"` with no name
match is dropped unless the event is important. -/
theorem C6_road_filter :
    (∀ (c : TrafikinfoCoordinator) (evs : List TrafikinfoEvent),
      apply_road_filter c evs =
        if normTokens c = [] then evs
        else evs.filter (fun e =>
          is_important_without_geo e || roadKeepAmended (normTokens c) e)) ∧
    apply_road_filter cRoads163 [ev163] = [ev163] ∧
    apply_road_filter cRoads163 [evE4] = [] ∧
    apply_road_filter cRoads163 [evE4safety] = [evE4safety] ∧
    normalize_road_filter_token "  Väg  163 " = "163" := by
  refine ⟨?_, by decide, by decide, by decide, by decide⟩
  intro c evs
  by_cases hfr : c.filter_roads = []
  · have hnt : normTokens c = [] := by simp [normTokens, hfr]
    simp [apply_road_filter, hfr, hnt]
  · by_cases hnt : normTokens c = []
    · simp [apply_road_filter, hfr, hnt]
    · simp only [apply_road_filter, if_neg hfr, if_neg hnt]
      exact roadFilterLoop_eq_filter hnt (fun t ht => normTokens_ne_empty ht) evs

/-- C7: every parsed event has `suspended ≠ true` and an end time that is
absent or not before the parse instant; concretely an active deviation
yields one event while a suspended one, an expired one, or a deleted
parent situation yields none. -/
theorem C7_parse_invariant :
    (∀ (pd : String → Option Datetime) (now : Datetime) (root : Xml) (d : TrafikinfoData),
      parse_response pd now (.ok root) = .ok d →
      ∀ e ∈ d.events, e.suspended ≠ some true ∧ ∀ t, e.end_time = some t → ¬ t < now) ∧
    (parse_response pdFix 1500 (.ok docActive)).map (fun d => d.events.length) = .ok 1 ∧
    (parse_response pdFix 1500 (.ok docSuspended)).map (fun d => d.events.length) = .ok 0 ∧
    (parse_response pdFix 1500 (.ok docExpired)).map (fun d => d.events.length) = .ok 0 ∧
    (parse_response pdFix 1500 (.ok docDeleted)).map (fun d => d.events.length) = .ok 0 := by
  refine ⟨?_, by decide, by decide, by decide, by decide⟩
  intro pd now root d h
  exact parse_root_ok_invariant h

/-- C7 (witness): the invariant applied to the concrete active feed. -/
theorem C7_witness :
    parse_response pdFix 1500 (.ok docActive) = .ok dataActive ∧
    (∀ e ∈ dataActive.events,
      e.suspended ≠ some true ∧ ∀ t, e.end_time = some t → ¬ t < 1500) :=
  ⟨by decide, C7_parse_invariant.1 pdFix 1500 docActive dataActive (by decide)⟩

/-- C9: a document carrying a nonempty `ERROR/MESSAGE` text makes parsing
fail with `AuthenticationError` when the message mentions
`authentication` or `invalid key` case-insensitively and with `ApiError`
otherwise, both carrying the stripped upstream text; concretely for the
two example payloads of the spec. -/
theorem C9_error_classification :
    (∀ (pd : String → Option Datetime) (now : Datetime) (root : Xml) (m : String),
      errorMessageOf root = some m → m ≠ "" →
      parse_response pd now (.ok root) =
        .error (if strContains (pyLower m) "authentication" = true ∨
            strContains (pyLower m) "invalid key" = true
          then .authentication ("Authentication failed: " ++ pyStripS m)
          else .api ("Trafikverket API error: " ++ pyStripS m))) ∧
    parse_response (fun _ => none) 0 (.ok docErrAuth) =
      .error (.authentication "Authentication failed: Invalid authentication key") ∧
    parse_response (fun _ => none) 0 (.ok docErrRate) =
      .error (.api "Trafikverket API error: rate limit exceeded") := by
  refine ⟨?_, by decide, by decide⟩
  intro pd now root m hm hne
  have hg : (errorMessageOf root).getD "" = m := by rw [hm]; rfl
  by_cases hc : strContains (pyLower m) "authentication" = true ∨
      strContains (pyLower m) "invalid key" = true
  · simp [parse_response, parse_root, hg, hne, hc]
  · simp [parse_response, parse_root, hg, hne, hc]

/-- C9 (witness): the classification applied to the concrete
authentication error payload. -/
theorem C9_witness :
    errorMessageOf docErrAuth = some "Invalid authentication key" ∧
    ("Invalid authentication key" : String) ≠ "" ∧
    parse_response (fun _ => none) 0 (.ok docErrAuth) =
      .error (if strContains (pyLower "Invalid authentication key") "authentication" = true ∨
          strContains (pyLower "Invalid authentication key") "invalid key" = true
        then .authentication ("Authentication failed: " ++
          pyStripS "Invalid authentication key")
        else .api ("Trafikverket API error: " ++ pyStripS "Invalid authentication key")) :=
  ⟨by decide, by decide,
   C9_error_classification.1 (fun _ => none) 0 docErrAuth "Invalid authentication key"
     (by decide) (by decide)⟩


/-- C2 (counterexample): with an empty API key the orchestrator raises
the kind-specific `AuthenticationError` itself instead of surfacing the
uniform update-failed signal. -/
theorem C2_counterexample :
    async_update_data cNoKey .timeout (fun _ => .error "boom") (fun _ => none) 0 =
      .raised (.authentication "Missing API key") := by
  decide

/-- C2 (amended): with an empty API key the poll raises
`AuthenticationError` directly (uncaught at the orchestrator boundary);
with a nonempty key every poll either succeeds or surfaces the uniform
update-failed signal — never an uncaught exception — and each failing
path (error payload or parse failure, timeout, client error, unexpected
error, HTTP 401/403) carries the original error message. -/
theorem C2_uniform_failure :
    (∀ (c : TrafikinfoCoordinator) (fetch : FetchResult) (fs : String → Except String Xml)
        (pd : String → Option Datetime) (now : Datetime),
      c.api_key = "" →
      async_update_data c fetch fs pd now = .raised (.authentication "Missing API key")) ∧
    (∀ (c : TrafikinfoCoordinator) (fetch : FetchResult) (fs : String → Except String Xml)
        (pd : String → Option Datetime) (now : Datetime),
      c.api_key ≠ "" →
      (∃ d, async_update_data c fetch fs pd now = .ready d) ∨
      (∃ m, async_update_data c fetch fs pd now = .updateFailed m)) ∧
    (∀ (c : TrafikinfoCoordinator) (fs : String → Except String Xml)
        (pd : String → Option Datetime) (now : Datetime) (body : String) (e : TrafikinfoErr),
      c.api_key ≠ "" → parse_response pd now (fs body) = .error e →
      async_update_data c (.response 200 body) fs pd now = .updateFailed e.message) ∧
    (∀ (c : TrafikinfoCoordinator) (fs : String → Except String Xml)
        (pd : String → Option Datetime) (now : Datetime),
      c.api_key ≠ "" →
      async_update_data c .timeout fs pd now =
        .updateFailed "Request timeout - Trafikverket API not responding") ∧
    (∀ (c : TrafikinfoCoordinator) (fs : String → Except String Xml)
        (pd : String → Option Datetime) (now : Datetime) (m : String),
      c.api_key ≠ "" →
      async_update_data c (.clientError m) fs pd now =
        .updateFailed ("Connection error: " ++ m)) ∧
    (∀ (c : TrafikinfoCoordinator) (fs : String → Except String Xml)
        (pd : String → Option Datetime) (now : Datetime) (m : String),
      c.api_key ≠ "" →
      async_update_data c (.unexpectedError m) fs pd now =
        .updateFailed ("Unexpected error fetching Trafikverket data: " ++ m)) ∧
    (∀ (c : TrafikinfoCoordinator) (fs : String → Except String Xml)
        (pd : String → Option Datetime) (now : Datetime) (body : String) (st : Nat),
      c.api_key ≠ "" → (st = 401 ∨ st = 403) →
      async_update_data c (.response st body) fs pd now =
        .updateFailed ("Authentication failed: HTTP " ++ toString st)) := by
  refine ⟨?_, ?_, ?_, ?_, ?_, ?_, ?_⟩
  · intro c fetch fs pd now hk
    simp [async_update_data, hk]
  · intro c fetch fs pd now hk
    rcases hres : async_update_data c fetch fs pd now with data | msg | err
    · exact Or.inl ⟨data, rfl⟩
    · exact Or.inr ⟨msg, rfl⟩
    · exfalso
      rcases fetch with ⟨st, body⟩ | _ | m | m
      · simp only [async_update_data, if_neg hk] at hres
        by_cases hst : st = 401 ∨ st = 403
        · rw [if_pos hst] at hres
          exact UpdateOutcome.noConfusion hres
        · rw [if_neg hst] at hres
          by_cases h200 : st = 200
          · rw [if_neg (by simpa using h200)] at hres
            cases hp : parse_response pd now (fs body) with
            | error e =>
              rw [hp] at hres
              exact UpdateOutcome.noConfusion hres
            | ok data =>
              rw [hp] at hres
              exact UpdateOutcome.noConfusion hres
          · rw [if_pos (by simpa using h200)] at hres
            exact UpdateOutcome.noConfusion hres
      · simp [async_update_data, hk] at hres
      · simp [async_update_data, hk] at hres
      · simp [async_update_data, hk] at hres
  · intro c fs pd now body e hk hp
    simp [async_update_data, hk, hp]
  · intro c fs pd now hk
    simp [async_update_data, hk]
  · intro c fs pd now m hk
    simp [async_update_data, hk]
  · intro c fs pd now m hk
    simp [async_update_data, hk]
  · intro c fs pd now body st hk hst
    rcases hst with rfl | rfl <;> simp [async_update_data, hk]

/-- C2 (witness): the amended theorem applied to a nonempty-key
configuration on a timed-out poll. -/
theorem C2_witness :
    baseCoordinator.api_key ≠ "" ∧
    ((∃ d, async_update_data baseCoordinator .timeout (fun _ => .error "x")
        (fun _ => none) 0 = .ready d) ∨
     (∃ m, async_update_data baseCoordinator .timeout (fun _ => .error "x")
        (fun _ => none) 0 = .updateFailed m)) :=
  ⟨by decide,
   C2_uniform_failure.2.1 baseCoordinator .timeout (fun _ => .error "x") (fun _ => none) 0
     (by decide)⟩

/-- C8 (counterexample): two distinct events share the identifier pair
`(none, none)`; the second has parsable geometry at distance 0 yet the
nearest sort places it after the distance-5 event (and after the
unresolvable-distance event), because its sort key reuses the cached
`None` distance of the first. -/
theorem C8_counterexample :
    pairOf evDupNoGeo = pairOf evDupGeo ∧
    event_distance_km cNearest evDupGeo = some 0 ∧
    event_distance_km cNearest evFarGeo = some 5 ∧
    sort_events cNearest [evDupNoGeo, evDupGeo, evFarGeo] =
      [evFarGeo, evDupNoGeo, evDupGeo] := by
  decide

/-- C8 (amended): when the input events carry pairwise-distinct
`(situationId, deviationId)` pairs, the `nearest` sort is ascending in
the key `(hasNoDistance, distanceKm, -pubTs, sid, did)` — so every
unresolvable-distance event sorts after every known-distance event and
known distances are ascending regardless of publication time — and the
`relevance` sort prefixes the same chain with the importance flag, so
every important-without-geo event precedes every non-important one. -/
theorem C8_sort_orders :
    ∀ (c : TrafikinfoCoordinator) (evs : List TrafikinfoEvent),
      (evs.map pairOf).Nodup →
      (c.sort_mode = SORT_MODE_NEAREST →
        (sort_events c evs).Pairwise (fun a b =>
          keyNearestOf a (event_distance_km c a) ≤ keyNearestOf b (event_distance_km c b) ∧
          (event_distance_km c a = none → event_distance_km c b = none) ∧
          (∀ x y, event_distance_km c a = some x → event_distance_km c b = some y →
            x ≤ y))) ∧
      (c.sort_mode = SORT_MODE_RELEVANCE →
        (sort_events c evs).Pairwise (fun a b =>
          keyRelevanceOf a (event_distance_km c a) ≤
            keyRelevanceOf b (event_distance_km c b) ∧
          (is_important_without_geo b = true → is_important_without_geo a = true))) := by
  intro c evs hnd
  constructor
  · intro hmode
    by_cases hevs : evs = []
    · simp [sort_events, hevs]
    · have hs : sort_events c evs =
          (pySortedUp (fun p => keyNearestOf p.1 p.2) (computeDists c evs)).map Prod.fst := by
        unfold sort_events
        rw [if_neg hevs, hmode,
          if_neg (by decide : ¬ SORT_MODE_NEAREST = SORT_MODE_NEWEST), if_pos rfl]
      rw [hs]
      refine pairwise_fst_of_sorted_pairs c evs _ _ ?_ hnd
      intro a b hle
      refine ⟨hle, fun hna => keyNearestOf_le_none hle hna, ?_⟩
      intro x y hx hy
      rw [hx, hy] at hle
      exact keyNearestOf_le_dist hle
  · intro hmode
    by_cases hevs : evs = []
    · simp [sort_events, hevs]
    · have hs : sort_events c evs =
          (pySortedUp (fun p => keyRelevanceOf p.1 p.2) (computeDists c evs)).map
            Prod.fst := by
        unfold sort_events
        rw [if_neg hevs, hmode,
          if_neg (by decide : ¬ SORT_MODE_RELEVANCE = SORT_MODE_NEWEST),
          if_neg (by decide : ¬ SORT_MODE_RELEVANCE = SORT_MODE_NEAREST)]
      rw [hs]
      refine pairwise_fst_of_sorted_pairs c evs _ _ ?_ hnd
      intro a b hle
      exact ⟨hle, fun hb => keyRelevanceOf_le_imp hle hb⟩

/-- C8 (witness): the amended theorem applied to a concrete two-event
list with distinct identifier pairs in nearest mode. -/
theorem C8_witness :
    ([evDupGeo, evFarGeo].map pairOf).Nodup ∧
    cNearest.sort_mode = SORT_MODE_NEAREST ∧
    (sort_events cNearest [evDupGeo, evFarGeo]).Pairwise (fun a b =>
      keyNearestOf a (event_distance_km cNearest a) ≤
        keyNearestOf b (event_distance_km cNearest b) ∧
      (event_distance_km cNearest a = none → event_distance_km cNearest b = none) ∧
      (∀ x y, event_distance_km cNearest a = some x →
        event_distance_km cNearest b = some y → x ≤ y)) :=
  ⟨by decide, by decide,
   (C8_sort_orders cNearest [evDupGeo, evFarGeo] (by decide)).1 (by decide)⟩

/-- C10: in the nearest/relevance sorter, per-event distances are
memoized by the `(situation_id, deviation_id)` pair: the decorated key
list pairs every event with the distance of the first input event sharing
its pair; concretely, two distinct events both keyed `(none, none)` but
with different geometries both receive the `None` distance computed for
the first, which reorders the relevance/nearest output. -/
theorem C10_distance_memoization :
    (∀ (c : TrafikinfoCoordinator) (evs : List TrafikinfoEvent),
      computeDists c evs = evs.map (fun e => (e, event_distance_km c
        ((evs.find? (fun x => decide (pairOf x = pairOf e))).getD e)))) ∧
    pairOf evDupNoGeo = pairOf evDupGeo ∧
    evDupNoGeo.geometry_wgs84 ≠ evDupGeo.geometry_wgs84 ∧
    event_distance_km cNearest evDupGeo = some 0 ∧
    computeDists cNearest [evDupNoGeo, evDupGeo] =
      [(evDupNoGeo, none), (evDupGeo, none)] ∧
    sort_events cRelevanceDup [evDupNoGeo, evDupGeo, evFarGeo] =
      [evFarGeo, evDupNoGeo, evDupGeo] := by
  refine ⟨computeDists_spec, by decide, by decide, by decide, by decide, by decide⟩

end Trafikinfo
